import Mathlib

/-!
Verification development for the acquisition-and-analysis pipeline of the
Gsaecy site repository.  The Python sources are shallowly embedded as pure
Lean functions: file-backed caches become explicit state (a function from
keys to payloads), wall-clock time becomes an explicit `Nat` parameter, and
network calls become oracle arguments.  Each embedded definition mirrors one
Python function and is named after it.
-/

namespace Gsaecy

/-! ### Cache Store — `scripts/utils/cache.py`, class `CacheManager`

A cache entry is a JSON payload `{"value": ..., "expires_at": ...}`;
`expires_at` is `None` ⟹ no expiry.  The store itself is one file per key;
we model it as a function from keys to optional payloads. -/

instance {ε α : Type} [DecidableEq ε] [DecidableEq α] :
    DecidableEq (Except ε α) := fun a b =>
  match a, b with
  | .ok x, .ok y =>
    if h : x = y then isTrue (by rw [h]) else isFalse (by intro hc; cases hc; exact h rfl)
  | .ok _, .error _ => isFalse (by intro hc; cases hc)
  | .error _, .ok _ => isFalse (by intro hc; cases hc)
  | .error x, .error y =>
    if h : x = y then isTrue (by rw [h]) else isFalse (by intro hc; cases hc; exact h rfl)

structure CachePayload (α : Type) where
  value : α
  expiresAt : Option Nat
deriving Repr, DecidableEq

def CacheState (α : Type) : Type := String → Option (CachePayload α)

def emptyCache (α : Type) : CacheState α := fun _ => none

/-- `CacheManager.get`: absent file ⟹ `None`; an entry whose `expires_at`
is truthy (non-`None`, non-zero) and strictly in the past is deleted and
reported absent; otherwise the stored value is returned.  Returns the
value read together with the possibly-shrunk store. -/
def cacheGet {α : Type} (s : CacheState α) (key : String) (now : Nat) :
    Option α × CacheState α :=
  match s key with
  | none => (none, s)
  | some p =>
    match p.expiresAt with
    | some e =>
      if e ≠ 0 ∧ e < now then
        (none, fun k => if k = key then none else s k)
      else (some p.value, s)
    | none => (some p.value, s)

/-- `CacheManager.set` with an explicit `ttl` argument: a truthy (non-zero)
`ttl` stores `expires_at = now + ttl`, a zero `ttl` stores `expires_at = None`. -/
def cacheSet {α : Type} (s : CacheState α) (key : String) (v : α)
    (ttl : Nat) (now : Nat) : CacheState α :=
  let payload : CachePayload α :=
    if ttl ≠ 0 then ⟨v, some (now + ttl)⟩ else ⟨v, none⟩
  fun k => if k = key then some payload else s k

/-- `CacheManager.set` called without a `ttl` argument: the Python default
is `ttl = 3600`, not "no expiry". -/
def cacheSetDefault {α : Type} (s : CacheState α) (key : String) (v : α)
    (now : Nat) : CacheState α :=
  cacheSet s key v 3600 now

/-! ### Analysis Client — `scripts/analyzers/deepseek_client.py`, class `DeepSeekClient`

The chat-style backend interface (spec §6) is the `client.chat.completions.create`
call; we model it as an attempt-indexed oracle `Nat → Except String ChatResponse`
so that the number of attempts the code makes is observable. -/

structure Message where
  role : String
  content : String
deriving Repr, DecidableEq

structure Usage where
  promptTokens : Nat
  completionTokens : Nat
  totalTokens : Nat
deriving Repr, DecidableEq

structure Choice where
  index : Nat
  message : Message
  finishReason : String
deriving Repr, DecidableEq

structure ChatResponse where
  id : String
  objectType : String
  created : Nat
  model : String
  choices : List Choice
  usage : Usage
deriving Repr, DecidableEq

/-- Configuration fields resolved in `DeepSeekClient.__init__` (model,
temperature, max_tokens, cache_ttl), with their code defaults as intended
values.  Temperature is an exact rational, mirroring the numeric literal. -/
structure DSConfig where
  model : String
  temperature : ℚ
  maxTokens : Nat
  cacheTtl : Nat
deriving Repr, DecidableEq

/-- Python `x or default` for an optional string argument: `None` and `""`
are falsy and select the default. -/
def orDefaultStr (o : Option String) (d : String) : String :=
  match o with
  | none => d
  | some s => if s = "" then d else s

/-- Python `x or default` for an optional float argument: `None` and `0.0`
are falsy and select the default. -/
def orDefaultQ (o : Option ℚ) (d : ℚ) : ℚ :=
  match o with
  | none => d
  | some x => if x = 0 then d else x

/-- Python `x or default` for an optional int argument: `None` and `0`
are falsy and select the default. -/
def orDefaultNat (o : Option Nat) (d : Nat) : Nat :=
  match o with
  | none => d
  | some n => if n = 0 then d else n

/-- The request parameters built in `chat_completion` (`stream=False` and the
removal of `None` values leave exactly these four fields, since the effective
model/temperature/max_tokens are never `None` after substitution). -/
structure RequestParams where
  model : String
  messages : List Message
  temperature : ℚ
  maxTokens : Nat
deriving Repr, DecidableEq

def requestParams (cfg : DSConfig) (messages : List Message)
    (model? : Option String) (temp? : Option ℚ) (maxTok? : Option Nat) :
    RequestParams :=
  ⟨orDefaultStr model? cfg.model, messages,
   orDefaultQ temp? cfg.temperature, orDefaultNat maxTok? cfg.maxTokens⟩

def encodeMessages (messages : List Message) : String :=
  messages.foldl (fun acc m => acc ++ "<" ++ m.role ++ ":" ++ m.content ++ ">") ""

/-- `DeepSeekClient._generate_cache_key`: an MD5 of the sorted-keys JSON of
`(messages, effective model, effective temperature, effective max_tokens)`.
The hash is modelled by its (injective-by-intent) preimage string. -/
def genCacheKey (cfg : DSConfig) (messages : List Message)
    (model? : Option String) (temp? : Option ℚ) (maxTok? : Option Nat) :
    String :=
  "max_tokens:" ++ toString (orDefaultNat maxTok? cfg.maxTokens) ++
  ";messages:" ++ encodeMessages messages ++
  ";model:" ++ orDefaultStr model? cfg.model ++
  ";temperature:" ++ toString (orDefaultQ temp? cfg.temperature).num ++
  "/" ++ toString (orDefaultQ temp? cfg.temperature).den

/-- The statistics dictionary of the client (timing fields, which read the
wall clock, are omitted; the claims only concern the counters). -/
structure DSStats where
  totalRequests : Nat
  successfulRequests : Nat
  failedRequests : Nat
  totalTokensUsed : Nat
deriving Repr, DecidableEq

/-- One run of `chat_completion`: the returned-or-raised result, the updated
statistics and cache, how often the backend was invoked, and the parameters
of the request that was sent (if any). -/
structure CCOutcome where
  result : Except String ChatResponse
  stats : DSStats
  cache : CacheState ChatResponse
  backendCalls : Nat
  requested : Option RequestParams

/-- The body of `chat_completion` after the cache key and request parameters
are formed.  On a cache hit the stored response (a non-empty dict, hence
truthy) is returned with no backend invocation.  Otherwise the backend is
invoked exactly once — there is no retry loop in this function or in
`_make_request` — and an exception propagates to the caller after the
failure counter is bumped. -/
def chatCompletionAux (cfg : DSConfig) (stats : DSStats)
    (cache : CacheState ChatResponse) (now : Nat) (key : String)
    (params : RequestParams) (useCache : Bool)
    (backend : Nat → Except String ChatResponse) : CCOutcome :=
  let miss (cache' : CacheState ChatResponse) : CCOutcome :=
    let stats1 := { stats with totalRequests := stats.totalRequests + 1 }
    match backend 0 with
    | .ok resp =>
      let stats2 :=
        { stats1 with
            successfulRequests := stats1.successfulRequests + 1,
            totalTokensUsed := stats1.totalTokensUsed + resp.usage.totalTokens }
      let cache2 :=
        if useCache then cacheSet cache' key resp cfg.cacheTtl now else cache'
      ⟨.ok resp, stats2, cache2, 1, some params⟩
    | .error e =>
      ⟨.error e, { stats1 with failedRequests := stats1.failedRequests + 1 },
       cache', 1, some params⟩
  if useCache then
    match cacheGet cache key now with
    | (some resp, cache') => ⟨.ok resp, stats, cache', 0, none⟩
    | (none, cache') => miss cache'
  else miss cache

/-- `DeepSeekClient.chat_completion`. -/
def chatCompletion (cfg : DSConfig) (stats : DSStats)
    (cache : CacheState ChatResponse) (now : Nat) (messages : List Message)
    (model? : Option String) (temp? : Option ℚ) (maxTok? : Option Nat)
    (useCache : Bool) (backend : Nat → Except String ChatResponse) :
    CCOutcome :=
  chatCompletionAux cfg stats cache now
    (genCacheKey cfg messages model? temp? maxTok?)
    (requestParams cfg messages model? temp? maxTok?) useCache backend

/-! ### Client construction — `DeepSeekClient.__init__` and
`DeepSeekAnalyzer.setup_deepseek_api` (`scripts/analyzers/deepseek_analyzer.py`) -/

/-- Key resolution in `DeepSeekClient.__init__`: a configured value of the
shape `$\x7bVAR\x7d` is looked up in the environment (defaulting to `""`);
anything else is taken literally.  The config default is `""`.  The
`startswith`/`endswith`/slicing calls are modelled on the character list. -/
def resolveClientApiKey (configApiKey : String) (env : String → Option String) :
    String :=
  if ("$\x7b".toList <+: configApiKey.toList) ∧
      ("\x7d".toList <:+ configApiKey.toList) then
    match env (String.mk ((configApiKey.toList.drop 2).dropLast)) with
    | some v => v
    | none => ""
  else configApiKey

structure DSClientInit where
  apiKey : String
  warned : Bool
  baseUrl : String
  model : String
deriving Repr, DecidableEq

/-- `DeepSeekClient.__init__` never raises on a missing key: it logs a
warning and constructs the client with an empty key.  The `Except` result
type makes "construction fails" expressible; the code always takes `.ok`. -/
def deepSeekClientInit (configApiKey baseUrl model : String)
    (env : String → Option String) : Except String DSClientInit :=
  let key := resolveClientApiKey configApiKey env
  .ok ⟨key, key = "", baseUrl, model⟩

def analyzerKeyErrorMsg : String := "DeepSeek API Key not configured"

/-- `DeepSeekAnalyzer.setup_deepseek_api`: `os.getenv('DEEPSEEK_API_KEY') or
api_config.get('api_key')`, then `raise ValueError` when the result is falsy. -/
def deepSeekAnalyzerSetup (envKey : Option String)
    (configApiKey : Option String) : Except String String :=
  let k : Option String :=
    match envKey with
    | some s => if s = "" then configApiKey else some s
    | none => configApiKey
  match k with
  | none => .error analyzerKeyErrorMsg
  | some s => if s = "" then .error analyzerKeyErrorMsg else .ok s

/-! ### Fetch Client — `scripts/collectors/base_collector.py`,
`BaseCollector.fetch_url` -/

structure FetchStats where
  totalRequests : Nat
  successfulRequests : Nat
  failedRequests : Nat
deriving Repr, DecidableEq

structure FetchOutcome where
  content : Option String
  stats : FetchStats
  cache : CacheState String

/-- The MD5 cache key of `fetch_url`, modelled by its preimage
`f"{url}_{method}_{params}_{data}"`. -/
def fetchCacheKey (url method ps dt : String) : String :=
  url ++ "_" ++ method ++ "_" ++ ps ++ "_" ++ dt

/-- The network half of `fetch_url` (entered only when the cache did not
answer): bumps `total_requests`, then either records a success and writes
the body through to the cache under the source's `update_interval` TTL, or
records a failure and returns `None`.  The network call is an oracle:
`some body` is a 2xx response, `none` any caught failure. -/
def fetchNet (st : FetchStats) (cache : CacheState String) (now : Nat)
    (key : String) (updateInterval : Nat) (useCache : Bool)
    (net : Option String) : FetchOutcome :=
  let st1 := { st with totalRequests := st.totalRequests + 1 }
  match net with
  | some body =>
    let st2 := { st1 with successfulRequests := st1.successfulRequests + 1 }
    let cache' :=
      if useCache then cacheSet cache key body updateInterval now else cache
    ⟨some body, st2, cache'⟩
  | none =>
    ⟨none, { st1 with failedRequests := st1.failedRequests + 1 }, cache⟩

/-- `BaseCollector.fetch_url`.  A cached truthy (non-empty) body is returned
with no counter movement; an empty cached string is falsy and falls through
to the network path, exactly as `if cached:` does. -/
def fetchUrl (st : FetchStats) (cache : CacheState String) (now : Nat)
    (url method ps dt : String) (useCache : Bool) (updateInterval : Nat)
    (net : Option String) : FetchOutcome :=
  let key := fetchCacheKey url method ps dt
  if useCache then
    match cacheGet cache key now with
    | (some c, cache') =>
      if c ≠ "" then ⟨some c, st, cache'⟩
      else fetchNet st cache' now key updateInterval useCache net
    | (none, cache') => fetchNet st cache' now key updateInterval useCache net
  else fetchNet st cache now key updateInterval useCache net

/-! ### Source Collector — `scripts/collectors/base_collector.py`,
`BaseCollector.filter_article`, `BaseCollector.is_duplicate`, and the
per-article accept loop of `NewsCollector.collect` -/

structure Article where
  url : String
  title : String
  content : String
  publishDate : String
  author : Option String
  summary : Option String
  tags : List String
  images : List String
  source : String
  sourceUrl : String
  collectedAt : String
deriving Repr, DecidableEq

/-- The MD5 dedup fingerprint key `"duplicate_" + md5(title + "_" + content[:100])`,
modelled by the hash preimage; the `[:100]` slice is the first 100 characters. -/
def dedupKey (a : Article) : String :=
  "duplicate_" ++ a.title ++ "_" ++ String.mk (a.content.toList.take 100)

/-- `BaseCollector.is_duplicate`: a truthy cached mark means duplicate; an
absent (or falsy) mark is replaced by a fresh `'1'` mark with a 24-hour TTL
and the article is reported new. -/
def isDuplicate (cache : CacheState String) (now : Nat) (a : Article) :
    Bool × CacheState String :=
  let key := dedupKey a
  match cacheGet cache key now with
  | (some v, c') =>
    if v ≠ "" then (true, c')
    else (false, cacheSet c' key "1" 86400 now)
  | (none, c') => (false, cacheSet c' key "1" 86400 now)

/-- `BaseCollector.filter_article`: required fields `title`, `content`,
`url` must be truthy, the content must reach `min_content_length`, and the
article must not be a duplicate. -/
def filterArticle (cache : CacheState String) (now minLen : Nat)
    (a : Article) : Bool × CacheState String :=
  if a.title = "" then (false, cache)
  else if a.content = "" then (false, cache)
  else if a.url = "" then (false, cache)
  else if a.content.length < minLen then (false, cache)
  else
    match isDuplicate cache now a with
    | (true, c') => (false, c')
    | (false, c') => (true, c')

/-- The accept loop of `NewsCollector.collect`: each link yields
`collect_article(link)` — `None` on fetch/parse failure, modelled as the
input list of options — and an article is kept iff it is non-`None` and
passes `filter_article`.  The dedup cache threads through the loop. -/
def collectLoop (now minLen : Nat) :
    CacheState String → List (Option Article) →
    List Article × CacheState String
  | cache, [] => ([], cache)
  | cache, none :: rest => collectLoop now minLen cache rest
  | cache, some a :: rest =>
    match filterArticle cache now minLen a with
    | (true, c') =>
      let (arts, c'') := collectLoop now minLen c' rest
      (a :: arts, c'')
    | (false, c') => collectLoop now minLen c' rest

/-! ### Collector Runner — `scripts/collectors/collector_runner.py`,
`CollectorRunner.collect_all` -/

structure Industry where
  name : String
  keywords : List String
deriving Repr, DecidableEq

/-- Python's `kw in text` substring test. -/
def substrIn (kw text : String) : Bool :=
  decide (kw.toList <:+: text.toList)

/-- The nested keyword loop of `collect_all`: `assigned` starts falsy
(`None`), is set to the industry's name at the first keyword hit, and the
outer loop breaks as soon as `assigned` is truthy (a non-empty name). -/
def assignLoop (text : String) :
    List Industry → Option String → Option String
  | [], acc => acc
  | ind :: rest, acc =>
    let acc' :=
      if ind.keywords.any (fun kw => substrIn kw text) then some ind.name
      else acc
    match acc' with
    | some n => if n = "" then assignLoop text rest acc' else some n
    | none => assignLoop text rest none

/-- Industry assignment in `collect_all`: first keyword match over
`title + content` in configuration order, with the hard-coded fallback
`assigned or "科技"`. -/
def assignIndustry (industries : List Industry) (a : Article) : String :=
  match assignLoop (a.title ++ a.content) industries none with
  | some n => if n = "" then "科技" else n
  | none => "科技"

def IndustryMap : Type := String → List Article

def emptyIndustryMap : IndustryMap := fun _ => []

/-- `industry_articles.setdefault(assigned, []).append(a)`. -/
def addToMap (m : IndustryMap) (ind : String) (a : Article) : IndustryMap :=
  fun k => if k = ind then m k ++ [a] else m k

def bucketArticles (industries : List Industry) :
    IndustryMap → List Article → IndustryMap
  | m, [] => m
  | m, a :: rest =>
    bucketArticles industries (addToMap m (assignIndustry industries a) a) rest

/-- `CollectorRunner.collect_all` after `asyncio.gather(..., return_exceptions=True)`:
each source's outcome is either a raised exception (skipped with a log line)
or its article list, whose members are bucketed by `assignIndustry`. -/
def collectAll (industries : List Industry)
    (results : List (Except String (List Article))) : IndustryMap :=
  results.foldl
    (fun m r =>
      match r with
      | .error _ => m
      | .ok arts => bucketArticles industries m arts)
    emptyIndustryMap

/-- The articles of the succeeding sources, in arrival order. -/
def successArticles (results : List (Except String (List Article))) :
    List Article :=
  (results.filterMap
    (fun r => match r with | .ok l => some l | .error _ => none)).flatten

/-! ### Derived predicates and sample data for concrete runs -/

/-- Whether `fetch_url` is answered from cache: a present, truthy (non-empty)
cached body. -/
def fetchHit (cache : CacheState String) (key : String) (now : Nat) : Bool :=
  match (cacheGet cache key now).1 with
  | some c => c != ""
  | none => false

/-- The counter movement `fetch_url` actually performs, as a function of
whether the cache answered and whether the network attempt succeeded. -/
def fetchExpectedStats (st : FetchStats) (hit : Bool) (net : Option String) :
    FetchStats :=
  if hit then st
  else
    match net with
    | some _ =>
      ⟨st.totalRequests + 1, st.successfulRequests + 1, st.failedRequests⟩
    | none =>
      ⟨st.totalRequests + 1, st.successfulRequests, st.failedRequests + 1⟩

/-- The spec's wording of industry assignment: the first industry in
configuration order with a keyword occurring in `title + content`, else a
*configured* default industry, which is therefore a parameter here.  The
code reads no such configuration entry: it always falls back to the
hard-coded constant `"科技"`, so the code can refine this spec function
only at the instantiation `defaultIndustry = "科技"`. -/
def specAssignIndustry (industries : List Industry) (defaultIndustry : String)
    (a : Article) : String :=
  match industries.find?
      (fun ind =>
        ind.keywords.any (fun kw => substrIn kw (a.title ++ a.content))) with
  | some ind => ind.name
  | none => defaultIndustry

def sampleResp : ChatResponse :=
  ⟨"id1", "chat.completion", 5, "deepseek-chat",
   [⟨0, ⟨"assistant", "ok"⟩, "stop"⟩], ⟨3, 4, 7⟩⟩

/-- A backend whose first attempt fails transiently and whose second attempt
would succeed: a retrying client would return `sampleResp`. -/
def flakyBackend : Nat → Except String ChatResponse :=
  fun n => if n = 0 then .error "timeout" else .ok sampleResp

def cfgSample : DSConfig := ⟨"deepseek-chat", 7 / 10, 4000, 3600⟩

def msgsSample : List Message := [⟨"user", "hi"⟩]

def artFin : Article :=
  ⟨"https://example.com/f", "股市快讯",
   String.mk (List.replicate 120 'x'), "2026-01-01", none, none, [], [],
   "src", "https://example.com", "t0"⟩

def artTech : Article :=
  ⟨"https://example.com/t", "别的新闻",
   String.mk (List.replicate 120 'y'), "2026-01-01", none, none, [], [],
   "src", "https://example.com", "t0"⟩

def artShort : Article :=
  ⟨"https://example.com/s", "短文",
   String.mk (List.replicate 50 'z'), "2026-01-01", none, none, [], [],
   "src", "https://example.com", "t0"⟩

def industriesSample : List Industry :=
  [⟨"金融", ["股"]⟩, ⟨"汽车", ["车"]⟩]

/-- The Article-validity invariant of the spec's data model (§3). -/
def validArticle (minLen : Nat) (a : Article) : Prop :=
  a.title ≠ "" ∧ a.content ≠ "" ∧ a.url ≠ "" ∧ minLen ≤ a.content.length

instance (minLen : Nat) (a : Article) : Decidable (validArticle minLen a) := by
  unfold validArticle
  infer_instance

/-! ### Characterization lemmas -/

theorem cacheSet_same {α : Type} (s : CacheState α) (key : String) (v : α)
    (ttl now : Nat) :
    cacheSet s key v ttl now key =
      some (if ttl ≠ 0 then ⟨v, some (now + ttl)⟩ else ⟨v, none⟩) := by
  simp [cacheSet]

theorem cacheSet_other {α : Type} (s : CacheState α) (key k : String) (v : α)
    (ttl now : Nat) (hk : k ≠ key) :
    cacheSet s key v ttl now k = s k := by
  simp [cacheSet, hk]

/-- Reading back an entry just written: the value is visible exactly until
`now + ttl` has strictly passed (for truthy `ttl`), and forever for `ttl = 0`. -/
theorem cacheGet_cacheSet_fst {α : Type} (s : CacheState α) (key : String)
    (v : α) (ttl t₀ t : Nat) :
    (cacheGet (cacheSet s key v ttl t₀) key t).1 =
      if ttl ≠ 0 ∧ t₀ + ttl < t then none else some v := by
  by_cases h : ttl ≠ 0
  · have hne : t₀ + ttl ≠ 0 := by omega
    by_cases hlt : t₀ + ttl < t
    · simp [cacheGet, cacheSet, h, hne, hlt]
    · simp [cacheGet, cacheSet, h, hne, hlt]
  · simp [cacheGet, cacheSet, h]

/-- The expired-entry read also removes the entry from the store. -/
theorem cacheGet_cacheSet_expired_removes {α : Type} (s : CacheState α)
    (key : String) (v : α) (ttl t₀ t : Nat) (h : ttl ≠ 0)
    (hlt : t₀ + ttl < t) :
    (cacheGet (cacheSet s key v ttl t₀) key t).2 key = none := by
  have hne : t₀ + ttl ≠ 0 := by omega
  simp [cacheGet, cacheSet, h, hne, hlt]

/-- A live read leaves the store untouched. -/
theorem cacheGet_live_snd {α : Type} (s : CacheState α) (key : String)
    (v : α) (ttl t₀ t : Nat) (h : ¬ (ttl ≠ 0 ∧ t₀ + ttl < t)) :
    (cacheGet (cacheSet s key v ttl t₀) key t).2 =
      cacheSet s key v ttl t₀ := by
  by_cases hz : ttl ≠ 0
  · have hne : t₀ + ttl ≠ 0 := by omega
    have hlt : ¬ t₀ + ttl < t := fun hc => h ⟨hz, hc⟩
    simp [cacheGet, cacheSet, hz, hne, hlt]
  · simp [cacheGet, cacheSet, hz]

theorem bucketArticles_apply (industries : List Industry) (m : IndustryMap)
    (l : List Article) (ind : String) :
    bucketArticles industries m l ind =
      m ind ++ l.filter (fun a => assignIndustry industries a == ind) := by
  induction l generalizing m with
  | nil => simp [bucketArticles]
  | cons a rest ih =>
    rw [bucketArticles, ih]
    by_cases h : assignIndustry industries a = ind
    · subst h
      simp [addToMap, List.filter_cons]
    · have h' : ¬ (ind = assignIndustry industries a) := fun hc => h hc.symm
      simp [addToMap, List.filter_cons, h, h']

theorem collectFold_apply (industries : List Industry)
    (results : List (Except String (List Article))) (m : IndustryMap)
    (ind : String) :
    (results.foldl
      (fun m r =>
        match r with
        | .error _ => m
        | .ok arts => bucketArticles industries m arts) m) ind =
      m ind ++ (successArticles results).filter
        (fun a => assignIndustry industries a == ind) := by
  induction results generalizing m with
  | nil => simp [successArticles]
  | cons r rest ih =>
    cases r with
    | error e =>
      simp only [List.foldl_cons]
      rw [ih]
      simp [successArticles, List.filterMap_cons]
    | ok arts =>
      simp only [List.foldl_cons]
      rw [ih, bucketArticles_apply]
      simp [successArticles, List.filterMap_cons, List.filter_append,
        List.append_assoc]

theorem collectAll_apply (industries : List Industry)
    (results : List (Except String (List Article))) (ind : String) :
    collectAll industries results ind =
      (successArticles results).filter
        (fun a => assignIndustry industries a == ind) := by
  have h := collectFold_apply industries results emptyIndustryMap ind
  simpa [collectAll, emptyIndustryMap] using h

theorem assignLoop_eq_find (text : String) (industries : List Industry)
    (h : ∀ ind ∈ industries, ind.name ≠ "") :
    assignLoop text industries none =
      (industries.find?
        (fun ind => ind.keywords.any (fun kw => substrIn kw text))).map
        Industry.name := by
  induction industries with
  | nil => simp [assignLoop]
  | cons ind rest ih =>
    have hname : ind.name ≠ "" := h ind (by simp)
    have hrest : ∀ i ∈ rest, i.name ≠ "" := fun i hi => h i (by simp [hi])
    by_cases hm : ind.keywords.any (fun kw => substrIn kw text) = true
    · simp [assignLoop, hm, hname, List.find?_cons_of_pos]
    · have hm' : ¬ (ind.keywords.any (fun kw => substrIn kw text) = true) := hm
      rw [List.find?_cons_of_neg _ (by simpa using hm')]
      simpa [assignLoop, hm'] using ih hrest

theorem validArticle_of_filter (cache : CacheState String) (now minLen : Nat)
    (a : Article) (h : (filterArticle cache now minLen a).1 = true) :
    validArticle minLen a := by
  by_cases h1 : a.title = ""
  · simp [filterArticle, h1] at h
  by_cases h2 : a.content = ""
  · simp [filterArticle, h1, h2] at h
  by_cases h3 : a.url = ""
  · simp [filterArticle, h1, h2, h3] at h
  by_cases h4 : a.content.length < minLen
  · simp [filterArticle, h1, h2, h3, h4] at h
  exact ⟨h1, h2, h3, by omega⟩

theorem filterArticle_eq_of_valid (cache : CacheState String)
    (now minLen : Nat) (a : Article) (hv : validArticle minLen a) :
    filterArticle cache now minLen a =
      ((!(isDuplicate cache now a).1), (isDuplicate cache now a).2) := by
  obtain ⟨h1, h2, h3, h4⟩ := hv
  have h4' : ¬ a.content.length < minLen := by omega
  rcases hd : isDuplicate cache now a with ⟨b, c⟩
  cases b <;> simp [filterArticle, h1, h2, h3, h4', hd]

theorem isDuplicate_of_fresh (cache : CacheState String) (now : Nat)
    (a : Article) (h : (cacheGet cache (dedupKey a) now).1 = none) :
    (isDuplicate cache now a).1 = false ∧
      (isDuplicate cache now a).2 (dedupKey a) =
        some ⟨"1", some (now + 86400)⟩ := by
  rcases hg : cacheGet cache (dedupKey a) now with ⟨v, c'⟩
  have hv : v = none := by rw [hg] at h; exact h
  subst hv
  refine ⟨by simp [isDuplicate, hg], ?_⟩
  simp [isDuplicate, hg, cacheSet]

theorem isDuplicate_of_hit (cache : CacheState String) (now : Nat)
    (a : Article) (v : String)
    (h : (cacheGet cache (dedupKey a) now).1 = some v) (hv : v ≠ "") :
    (isDuplicate cache now a).1 = true := by
  rcases hg : cacheGet cache (dedupKey a) now with ⟨w, c'⟩
  have hw : w = some v := by rw [hg] at h; exact h
  subst hw
  simp [isDuplicate, hg, hv]

theorem cacheGet_fst_of_entry {α : Type} (s : CacheState α) (key : String)
    (v : α) (e t : Nat) (h : s key = some ⟨v, some e⟩) :
    (cacheGet s key t).1 = if e ≠ 0 ∧ e < t then none else some v := by
  by_cases hc : e ≠ 0 ∧ e < t <;> simp [cacheGet, h, hc]

theorem collectLoop_valid (now minLen : Nat) :
    ∀ (ol : List (Option Article)) (cache : CacheState String) (a : Article),
      a ∈ (collectLoop now minLen cache ol).1 → validArticle minLen a := by
  intro ol
  induction ol with
  | nil => intro cache a ha; simp [collectLoop] at ha
  | cons o rest ih =>
    intro cache a ha
    cases o with
    | none => exact ih cache a (by simpa [collectLoop] using ha)
    | some b =>
      rcases hf : filterArticle cache now minLen b with ⟨keep, c'⟩
      cases keep with
      | false =>
        rw [collectLoop, hf] at ha
        exact ih c' a ha
      | true =>
        rw [collectLoop, hf] at ha
        rcases hc : collectLoop now minLen c' rest with ⟨arts, c''⟩
        simp [hc] at ha
        rcases ha with rfl | ha
        · exact validArticle_of_filter cache now minLen a (by rw [hf])
        · exact ih c' a (by rw [hc]; exact ha)

theorem chatCompletionAux_hit (cfg : DSConfig) (stats : DSStats)
    (cache : CacheState ChatResponse) (now : Nat) (key : String)
    (params : RequestParams) (backend : Nat → Except String ChatResponse)
    (resp : ChatResponse)
    (h : (cacheGet cache key now).1 = some resp) :
    chatCompletionAux cfg stats cache now key params true backend =
      ⟨.ok resp, stats, (cacheGet cache key now).2, 0, none⟩ := by
  rcases hg : cacheGet cache key now with ⟨v, c'⟩
  have hv : v = some resp := by rw [hg] at h; exact h
  subst hv
  simp [chatCompletionAux, hg]

theorem chatCompletionAux_miss (cfg : DSConfig) (stats : DSStats)
    (cache : CacheState ChatResponse) (now : Nat) (key : String)
    (params : RequestParams) (backend : Nat → Except String ChatResponse)
    (h : (cacheGet cache key now).1 = none) :
    chatCompletionAux cfg stats cache now key params true backend =
      (match backend 0 with
       | .ok resp =>
         ⟨.ok resp,
          ⟨stats.totalRequests + 1, stats.successfulRequests + 1,
           stats.failedRequests,
           stats.totalTokensUsed + resp.usage.totalTokens⟩,
          cacheSet (cacheGet cache key now).2 key resp cfg.cacheTtl now, 1,
          some params⟩
       | .error e =>
         ⟨.error e,
          ⟨stats.totalRequests + 1, stats.successfulRequests,
           stats.failedRequests + 1, stats.totalTokensUsed⟩,
          (cacheGet cache key now).2, 1, some params⟩) := by
  rcases hg : cacheGet cache key now with ⟨v, c'⟩
  have hv : v = none := by rw [hg] at h; exact h
  subst hv
  rcases hb : backend 0 with e | resp <;> simp [chatCompletionAux, hg, hb]

/-! ### Claim theorems -/

/-- C2 counterexample: the claim as stated fails on `CacheManager` twice.
First, at `now = expires_at` the code still returns the stored value (it
expires only on `now > expires_at`), refuting "returns the stored value iff
the current time is strictly less than expires_at".  Second, `set` with
`ttl` unset uses the Python default `3600`, so the entry does expire,
refuting "ttl = 0 or unset stores an entry with no expiry". -/
theorem claim_C2_counterexample :
    (cacheGet (cacheSet (emptyCache String) "k" "v" 10 0) "k" 10).1 = some "v"
    ∧ ¬ ((10 : Nat) < 10)
    ∧ (cacheGet (cacheSetDefault (emptyCache String) "k" "v" 0) "k" 4000).1 =
        none := by
  refine ⟨by decide, by decide, by decide⟩

/-- C2 (amended): for *every* cache entry — whatever wrote it — `get(key)`
returns the stored value iff the entry is unexpired, where expiry means
`expires_at` truthy and *strictly* past (`now > expires_at`; at
`now = expires_at` the value is still returned); an expired entry is removed
by `get` as a side effect; `set` with `ttl = 0` stores an entry with no
expiry; `ttl` unset defaults to 3600 seconds rather than no expiry. -/
theorem claim_C2_cache_ttl (s : CacheState String) (key v : String)
    (ttl t₀ t : Nat) :
    (cacheGet (cacheSet s key v ttl t₀) key t).1 =
      (if ttl ≠ 0 ∧ t₀ + ttl < t then none else some v)
    ∧ (cacheGet (cacheSet s key v ttl t₀) key t).2 key =
      (if ttl ≠ 0 ∧ t₀ + ttl < t then none
       else some (if ttl ≠ 0 then ⟨v, some (t₀ + ttl)⟩ else ⟨v, none⟩))
    ∧ (cacheGet (cacheSetDefault s key v t₀) key t).1 =
      (if t₀ + 3600 < t then none else some v)
    ∧ (∀ (s' : CacheState String) (p : CachePayload String),
        s' key = some p →
          (cacheGet s' key t).1 =
            (match p.expiresAt with
             | none => some p.value
             | some e => if e ≠ 0 ∧ e < t then none else some p.value)
          ∧ (∀ e, p.expiresAt = some e → e ≠ 0 → e < t →
              (cacheGet s' key t).2 key = none)) := by
  refine ⟨cacheGet_cacheSet_fst s key v ttl t₀ t, ?_, ?_, ?_⟩
  · by_cases h : ttl ≠ 0 ∧ t₀ + ttl < t
    · rw [if_pos h]
      exact cacheGet_cacheSet_expired_removes s key v ttl t₀ t h.1 h.2
    · rw [if_neg h, cacheGet_live_snd s key v ttl t₀ t h, cacheSet_same]
  · rw [cacheSetDefault, cacheGet_cacheSet_fst]
    simp
  · intro s' p hp
    rcases p with ⟨pv, pe⟩
    constructor
    · cases pe with
      | none => simp [cacheGet, hp]
      | some e =>
        by_cases hc : e ≠ 0 ∧ e < t
        · simp [cacheGet, hp, hc]
        · simp [cacheGet, hp, hc]
    · intro e he h0 hlt
      cases he
      simp [cacheGet, hp, h0, hlt]

/-- C2 witness: the general-entry part of the amended theorem applied to a
store holding an entry that expired at t=5, read at t=9: the read observes
absence and the entry is removed. -/
theorem claim_C2_witness :
    (cacheGet (fun k => if k = "k" then some ⟨"v", some 5⟩ else none)
        "k" 9).1 = none
    ∧ (cacheGet (fun k => if k = "k" then some ⟨"v", some 5⟩ else none)
        "k" 9).2 "k" = none := by
  have t := (claim_C2_cache_ttl (emptyCache String) "k" "v" 10 0 9).2.2.2
    (fun k => if k = "k" then some ⟨"v", some 5⟩ else none) ⟨"v", some 5⟩
    (by decide)
  exact ⟨by rw [t.1]; decide, t.2 5 rfl (by decide) (by decide)⟩

/-- C7 counterexample: a `fetch_url` call answered from cache returns the
cached body without incrementing `total_requests` (the increment sits after
the early cache return), refuting "every call (including calls answered from
cache) increments total_requests". -/
theorem claim_C7_counterexample :
    (fetchUrl ⟨0, 0, 0⟩
        (cacheSet (emptyCache String)
          (fetchCacheKey "https://a" "GET" "None" "None") "abc" 3600 0)
        1 "https://a" "GET" "None" "None" true 3600
        (some "zz")).stats.totalRequests = 0
    ∧ (fetchUrl ⟨0, 0, 0⟩
        (cacheSet (emptyCache String)
          (fetchCacheKey "https://a" "GET" "None" "None") "abc" 3600 0)
        1 "https://a" "GET" "None" "None" true 3600
        (some "zz")).content = some "abc" := by
  refine ⟨by decide, by decide⟩

/-- C7 (amended): a `fetch_url` call answered from cache leaves all counters
unchanged; a call not answered from cache increments `total_requests`, plus
`successful_requests` on a successful network attempt or `failed_requests`
on a failed one.  `fetch_url` maintains no rolling average latency (its
stats have no such field; the duration is only logged). -/
theorem claim_C7_fetch_stats (st : FetchStats) (cache : CacheState String)
    (now : Nat) (u m p d : String) (ui : Nat) (net : Option String) :
    (fetchUrl st cache now u m p d true ui net).stats =
      fetchExpectedStats st (fetchHit cache (fetchCacheKey u m p d) now) net
    ∧ (fetchUrl st cache now u m p d false ui net).stats =
      fetchExpectedStats st false net := by
  constructor
  · rcases hg : cacheGet cache (fetchCacheKey u m p d) now with ⟨v, c'⟩
    cases v with
    | none => cases net <;> simp [fetchUrl, fetchNet, fetchHit, fetchExpectedStats, hg]
    | some c =>
      by_cases hc : c = ""
      · subst hc
        cases net <;> simp [fetchUrl, fetchNet, fetchHit, fetchExpectedStats, hg]
      · cases net <;> simp [fetchUrl, fetchNet, fetchHit, fetchExpectedStats, hg, hc]
  · cases net <;> simp [fetchUrl, fetchNet, fetchExpectedStats]

/-- C9 counterexample: with an empty configured key and an empty
environment, `DeepSeekClient.__init__` resolves the key to `""` yet still
constructs the client (it only logs a warning), refuting "the client cannot
be constructed". -/
theorem claim_C9_counterexample :
    resolveClientApiKey "" (fun _ => none) = ""
    ∧ deepSeekClientInit "" "https://api.deepseek.com" "deepseek-chat"
        (fun _ => none) =
      .ok ⟨"", true, "https://api.deepseek.com", "deepseek-chat"⟩ := by
  refine ⟨by decide, by decide⟩

/-- C9 (amended): with the API key absent, `DeepSeekAnalyzer.setup_deepseek_api`
raises at startup, but `DeepSeekClient.__init__` constructs successfully with
an empty key after a warning. -/
theorem claim_C9_key_absence (cfgKey baseUrl model : String)
    (env : String → Option String) (envKey cfgKeyA : Option String)
    (h1 : resolveClientApiKey cfgKey env = "")
    (h2 : envKey = none ∨ envKey = some "")
    (h3 : cfgKeyA = none ∨ cfgKeyA = some "") :
    deepSeekClientInit cfgKey baseUrl model env =
      .ok ⟨"", true, baseUrl, model⟩
    ∧ deepSeekAnalyzerSetup envKey cfgKeyA = .error analyzerKeyErrorMsg := by
  constructor
  · simp [deepSeekClientInit, h1]
  · rcases h2 with rfl | rfl <;> rcases h3 with rfl | rfl <;>
      simp [deepSeekAnalyzerSetup]

/-- C9 witness: the amended theorem applied to a configuration that points
at an unset environment variable. -/
theorem claim_C9_witness :
    deepSeekClientInit "$\x7bDEEPSEEK_API_KEY\x7d" "https://api.deepseek.com"
        "deepseek-chat" (fun _ => none) =
      .ok ⟨"", true, "https://api.deepseek.com", "deepseek-chat"⟩
    ∧ deepSeekAnalyzerSetup none none = .error analyzerKeyErrorMsg :=
  claim_C9_key_absence "$\x7bDEEPSEEK_API_KEY\x7d" "https://api.deepseek.com"
    "deepseek-chat" (fun _ => none) none none (by decide) (Or.inl rfl)
    (Or.inl rfl)

/-- C10: a falsy explicit override (`temperature = 0.0`, `max_tokens = 0`,
`model = ""`) is swallowed by the `x or default` substitution, both in the
outgoing request parameters and in the cache key, so the whole
`chat_completion` outcome is identical to passing no override at all. -/
theorem claim_C10_falsy_overrides (cfg : DSConfig) (stats : DSStats)
    (cache : CacheState ChatResponse) (now : Nat) (messages : List Message)
    (model? : Option String) (temp? : Option ℚ) (maxTok? : Option Nat)
    (useCache : Bool) (backend : Nat → Except String ChatResponse) :
    chatCompletion cfg stats cache now messages (some "") temp? maxTok?
        useCache backend =
      chatCompletion cfg stats cache now messages none temp? maxTok?
        useCache backend
    ∧ chatCompletion cfg stats cache now messages model? (some 0) maxTok?
        useCache backend =
      chatCompletion cfg stats cache now messages model? none maxTok?
        useCache backend
    ∧ chatCompletion cfg stats cache now messages model? temp? (some 0)
        useCache backend =
      chatCompletion cfg stats cache now messages model? temp? none
        useCache backend
    ∧ genCacheKey cfg messages (some "") temp? maxTok? =
      genCacheKey cfg messages none temp? maxTok?
    ∧ genCacheKey cfg messages model? (some 0) maxTok? =
      genCacheKey cfg messages model? none maxTok?
    ∧ genCacheKey cfg messages model? temp? (some 0) =
      genCacheKey cfg messages model? temp? none
    ∧ requestParams cfg messages (some "") temp? maxTok? =
      requestParams cfg messages none temp? maxTok?
    ∧ requestParams cfg messages model? (some 0) maxTok? =
      requestParams cfg messages model? none maxTok?
    ∧ requestParams cfg messages model? temp? (some 0) =
      requestParams cfg messages model? temp? none := by
  refine ⟨?_, ?_, ?_, ?_, ?_, ?_, ?_, ?_, ?_⟩ <;>
    simp [chatCompletion, genCacheKey, requestParams, orDefaultStr,
      orDefaultQ, orDefaultNat]

/-- C6 counterexample: with an empty cache and a backend whose first attempt
fails transiently while its second attempt would succeed, `chat_completion`
invokes the backend exactly once — not 3 times — and surfaces the failure
instead of retrying into the available success. -/
theorem claim_C6_counterexample :
    (chatCompletion cfgSample ⟨0, 0, 0, 0⟩ (emptyCache ChatResponse) 0
        msgsSample none none none true flakyBackend).backendCalls = 1
    ∧ (chatCompletion cfgSample ⟨0, 0, 0, 0⟩ (emptyCache ChatResponse) 0
        msgsSample none none none true flakyBackend).result =
      .error "timeout"
    ∧ flakyBackend 1 = .ok sampleResp
    ∧ ¬ ((chatCompletion cfgSample ⟨0, 0, 0, 0⟩ (emptyCache ChatResponse) 0
        msgsSample none none none true flakyBackend).backendCalls = 3) := by
  refine ⟨rfl, rfl, rfl, by decide⟩

/-- C6 (amended): a cache miss invokes the backend (the chat-completions
call of spec §6) exactly once at this layer; any failure surfaces
immediately to the caller with no retry and no backoff. -/
theorem claim_C6_single_attempt (cfg : DSConfig) (stats : DSStats)
    (cache : CacheState ChatResponse) (now : Nat) (messages : List Message)
    (model? : Option String) (temp? : Option ℚ) (maxTok? : Option Nat)
    (backend : Nat → Except String ChatResponse)
    (hfresh : (cacheGet cache (genCacheKey cfg messages model? temp? maxTok?)
        now).1 = none) :
    (chatCompletion cfg stats cache now messages model? temp? maxTok? true
        backend).backendCalls = 1
    ∧ (∀ e, backend 0 = .error e →
        (chatCompletion cfg stats cache now messages model? temp? maxTok?
          true backend).result = .error e)
    ∧ (∀ resp, backend 0 = .ok resp →
        (chatCompletion cfg stats cache now messages model? temp? maxTok?
          true backend).result = .ok resp) := by
  rw [chatCompletion, chatCompletionAux_miss _ _ _ _ _ _ _ hfresh]
  rcases hb : backend 0 with e | resp
  · exact ⟨rfl, fun e' he => by simp [hb] at he; simp [he], fun r hr => by simp [hb] at hr⟩
  · exact ⟨rfl, fun e' he => by simp [hb] at he, fun r hr => by simp [hb] at hr; simp [hr]⟩

/-- C6 witness: the amended theorem at a concrete failing backend. -/
theorem claim_C6_witness :
    (chatCompletion cfgSample ⟨0, 0, 0, 0⟩ (emptyCache ChatResponse) 5
        msgsSample none none none true (fun _ => .error "boom")).backendCalls
      = 1
    ∧ (chatCompletion cfgSample ⟨0, 0, 0, 0⟩ (emptyCache ChatResponse) 5
        msgsSample none none none true (fun _ => .error "boom")).result =
      .error "boom" := by
  have t := claim_C6_single_attempt cfgSample ⟨0, 0, 0, 0⟩
    (emptyCache ChatResponse) 5 msgsSample none none none
    (fun _ => .error "boom") rfl
  exact ⟨t.1, t.2.1 "boom" rfl⟩

/-- C1: with caching enabled, a fresh cache key and a successful first
backend call, a second `chat_completion` with identical `(messages, model,
temperature, max_tokens)` arriving while the cached entry is still within
the TTL is answered from the cache: across the two calls exactly one
backend invocation happens, and the second call returns the first call's
structured result for any behaviour of the network. -/
theorem claim_C1_analysis_cache_reuse (cfg : DSConfig) (stats : DSStats)
    (cache : CacheState ChatResponse) (now₁ now₂ : Nat)
    (messages : List Message) (model? : Option String) (temp? : Option ℚ)
    (maxTok? : Option Nat) (resp : ChatResponse)
    (backend₁ backend₂ : Nat → Except String ChatResponse)
    (hfresh : (cacheGet cache (genCacheKey cfg messages model? temp? maxTok?)
        now₁).1 = none)
    (hok : backend₁ 0 = .ok resp) (httl : cfg.cacheTtl ≠ 0)
    (hwin : now₂ ≤ now₁ + cfg.cacheTtl) :
    (chatCompletion cfg stats cache now₁ messages model? temp? maxTok? true
        backend₁).result = .ok resp
    ∧ (chatCompletion cfg stats cache now₁ messages model? temp? maxTok? true
        backend₁).backendCalls = 1
    ∧ (chatCompletion cfg
        (chatCompletion cfg stats cache now₁ messages model? temp? maxTok?
          true backend₁).stats
        (chatCompletion cfg stats cache now₁ messages model? temp? maxTok?
          true backend₁).cache
        now₂ messages model? temp? maxTok? true backend₂).result = .ok resp
    ∧ (chatCompletion cfg
        (chatCompletion cfg stats cache now₁ messages model? temp? maxTok?
          true backend₁).stats
        (chatCompletion cfg stats cache now₁ messages model? temp? maxTok?
          true backend₁).cache
        now₂ messages model? temp? maxTok? true backend₂).backendCalls
      = 0 := by
  have e₁ : chatCompletion cfg stats cache now₁ messages model? temp? maxTok?
      true backend₁ =
      ⟨.ok resp,
       ⟨stats.totalRequests + 1, stats.successfulRequests + 1,
        stats.failedRequests,
        stats.totalTokensUsed + resp.usage.totalTokens⟩,
       cacheSet
         (cacheGet cache (genCacheKey cfg messages model? temp? maxTok?)
           now₁).2
         (genCacheKey cfg messages model? temp? maxTok?) resp cfg.cacheTtl
         now₁,
       1, some (requestParams cfg messages model? temp? maxTok?)⟩ := by
    rw [chatCompletion, chatCompletionAux_miss _ _ _ _ _ _ _ hfresh, hok]
  have hget2 : (cacheGet
      (cacheSet
        (cacheGet cache (genCacheKey cfg messages model? temp? maxTok?)
          now₁).2
        (genCacheKey cfg messages model? temp? maxTok?) resp cfg.cacheTtl
        now₁)
      (genCacheKey cfg messages model? temp? maxTok?) now₂).1 = some resp := by
    rw [cacheGet_cacheSet_fst, if_neg]
    rintro ⟨-, h2⟩
    omega
  refine ⟨?_, ?_, ?_, ?_⟩
  · rw [e₁]
  · rw [e₁]
  · rw [e₁]
    dsimp only
    rw [chatCompletion, chatCompletionAux_hit _ _ _ _ _ _ backend₂ resp hget2]
  · rw [e₁]
    dsimp only
    rw [chatCompletion, chatCompletionAux_hit _ _ _ _ _ _ backend₂ resp hget2]

/-- C1 witness: a concrete pair of calls; the second backend is a failing
network, yet the second call still answers with the first response. -/
theorem claim_C1_witness :
    (chatCompletion cfgSample ⟨0, 0, 0, 0⟩ (emptyCache ChatResponse) 10
        msgsSample none none none true
        (fun _ => .ok sampleResp)).backendCalls = 1
    ∧ (chatCompletion cfgSample
        (chatCompletion cfgSample ⟨0, 0, 0, 0⟩ (emptyCache ChatResponse) 10
          msgsSample none none none true (fun _ => .ok sampleResp)).stats
        (chatCompletion cfgSample ⟨0, 0, 0, 0⟩ (emptyCache ChatResponse) 10
          msgsSample none none none true (fun _ => .ok sampleResp)).cache
        1000 msgsSample none none none true
        (fun _ => .error "down")).result = .ok sampleResp
    ∧ (chatCompletion cfgSample
        (chatCompletion cfgSample ⟨0, 0, 0, 0⟩ (emptyCache ChatResponse) 10
          msgsSample none none none true (fun _ => .ok sampleResp)).stats
        (chatCompletion cfgSample ⟨0, 0, 0, 0⟩ (emptyCache ChatResponse) 10
          msgsSample none none none true (fun _ => .ok sampleResp)).cache
        1000 msgsSample none none none true
        (fun _ => .error "down")).backendCalls = 0 := by
  have t := claim_C1_analysis_cache_reuse cfgSample ⟨0, 0, 0, 0⟩
    (emptyCache ChatResponse) 10 1000 msgsSample none none none sampleResp
    (fun _ => .ok sampleResp) (fun _ => .error "down") rfl rfl (by decide)
    (by decide)
  exact ⟨t.2.1, t.2.2.1, t.2.2.2⟩

/-- C3: fan-out isolation in `collect_all`.  A source whose task resolves to
an exception changes nothing in the returned industry mapping (it
contributes zero articles and aborts nothing), and every article of every
succeeding source is present in its industry's bucket.  `collect_all` is a
total function of the gathered results, so it raises for no input. -/
theorem claim_C3_fanout_isolation (industries : List Industry)
    (rs₁ rs₂ : List (Except String (List Article))) (e : String)
    (results : List (Except String (List Article))) (i : Nat)
    (l : List Article) (a : Article)
    (hres : results[i]? = some (.ok l)) (ha : a ∈ l) :
    collectAll industries (rs₁ ++ .error e :: rs₂) =
      collectAll industries (rs₁ ++ rs₂)
    ∧ a ∈ collectAll industries results (assignIndustry industries a) := by
  constructor
  · funext ind
    rw [collectAll_apply, collectAll_apply]
    have hs : successArticles (rs₁ ++ .error e :: rs₂) =
        successArticles (rs₁ ++ rs₂) := by
      simp [successArticles, List.filterMap_append, List.filterMap_cons]
    rw [hs]
  · have hmem : (Except.ok l : Except String (List Article)) ∈ results :=
      List.getElem?_mem hres
    have hsucc : a ∈ successArticles results := by
      rw [successArticles]
      exact List.mem_flatten.mpr
        ⟨l, List.mem_filterMap.mpr ⟨.ok l, hmem, rfl⟩, ha⟩
    rw [collectAll_apply]
    exact List.mem_filter.mpr ⟨hsucc, by simp⟩

/-- C3 witness: a failing middle source among two succeeding ones. -/
theorem claim_C3_witness :
    collectAll industriesSample
        [.ok [artFin], .error "boom", .ok [artTech]] =
      collectAll industriesSample [.ok [artFin], .ok [artTech]]
    ∧ artTech ∈ collectAll industriesSample
        [.ok [artFin], .error "boom", .ok [artTech]]
        (assignIndustry industriesSample artTech) := by
  have t := claim_C3_fanout_isolation industriesSample [.ok [artFin]]
    [.ok [artTech]] "boom" [.ok [artFin], .error "boom", .ok [artTech]] 2
    [artTech] artTech rfl (by simp)
  exact ⟨t.1, t.2⟩

/-- C4: time-windowed dedup.  For two articles with identical title and
content prefix (hence identical fingerprint), both otherwise valid, with the
fingerprint unseen at the first call: the first passes the filter and marks
the fingerprint; a second presentation within 24 hours (86400 s) is
rejected as a duplicate; a second presentation strictly after the window is
accepted again. -/
theorem claim_C4_dedup_window (cache : CacheState String)
    (now₁ minLen : Nat) (a₁ a₂ : Article) (ht : a₁.title = a₂.title)
    (hp : a₁.content.toList.take 100 = a₂.content.toList.take 100)
    (hv₁ : validArticle minLen a₁) (hv₂ : validArticle minLen a₂)
    (hfresh : (cacheGet cache (dedupKey a₁) now₁).1 = none) (now₂ : Nat) :
    (filterArticle cache now₁ minLen a₁).1 = true
    ∧ (now₂ ≤ now₁ + 86400 →
        (filterArticle (filterArticle cache now₁ minLen a₁).2 now₂ minLen
          a₂).1 = false)
    ∧ (now₁ + 86400 < now₂ →
        (filterArticle (filterArticle cache now₁ minLen a₁).2 now₂ minLen
          a₂).1 = true) := by
  have hkey : dedupKey a₂ = dedupKey a₁ := by
    rw [dedupKey, dedupKey, ← ht, ← hp]
  have hdup := isDuplicate_of_fresh cache now₁ a₁ hfresh
  have hfa₁ := filterArticle_eq_of_valid cache now₁ minLen a₁ hv₁
  have hentry : (filterArticle cache now₁ minLen a₁).2 (dedupKey a₂) =
      some ⟨"1", some (now₁ + 86400)⟩ := by
    rw [hfa₁, hkey]
    exact hdup.2
  refine ⟨by rw [hfa₁]; simp [hdup.1], ?_, ?_⟩
  · intro hle
    have hget : (cacheGet (filterArticle cache now₁ minLen a₁).2
        (dedupKey a₂) now₂).1 = some "1" := by
      rw [cacheGet_fst_of_entry _ _ _ _ _ hentry, if_neg]
      rintro ⟨-, h2⟩
      omega
    have hd := isDuplicate_of_hit _ now₂ a₂ "1" hget (by decide)
    rw [filterArticle_eq_of_valid _ now₂ minLen a₂ hv₂]
    simp [hd]
  · intro hlt
    have hget : (cacheGet (filterArticle cache now₁ minLen a₁).2
        (dedupKey a₂) now₂).1 = none := by
      rw [cacheGet_fst_of_entry _ _ _ _ _ hentry, if_pos ⟨by omega, by omega⟩]
    have hd := isDuplicate_of_fresh _ now₂ a₂ hget
    rw [filterArticle_eq_of_valid _ now₂ minLen a₂ hv₂]
    simp [hd.1]

set_option maxRecDepth 10000 in
/-- C4 witness: the same article presented at t=0, t=1000 (rejected) and
t=90000 (accepted again after the 24-hour window). -/
theorem claim_C4_witness :
    (filterArticle (emptyCache String) 0 100 artFin).1 = true
    ∧ (filterArticle (filterArticle (emptyCache String) 0 100 artFin).2 1000
        100 artFin).1 = false
    ∧ (filterArticle (filterArticle (emptyCache String) 0 100 artFin).2 90000
        100 artFin).1 = true := by
  have t1 := claim_C4_dedup_window (emptyCache String) 0 100 artFin artFin
    rfl rfl (by decide) (by decide) rfl 1000
  have t2 := claim_C4_dedup_window (emptyCache String) 0 100 artFin artFin
    rfl rfl (by decide) (by decide) rfl 90000
  exact ⟨t1.1, t1.2.1 (by decide), t2.2.2 (by decide)⟩

set_option maxRecDepth 10000 in
/-- C5 counterexample: the claim as stated fails on the code in two ways,
both exhibited at concrete inputs.  First-match fails: in the configuration
`[⟨"", ["股"]⟩, ⟨"汽车", ["股"]⟩]` the first industry whose keyword list
matches `artFin` is the empty-named one (shown via `find?`), yet the code
assigns `"汽车"` — its `if assigned: break` treats the falsy name `""` as
no assignment and keeps scanning.  Configured default fails: with an empty
industries configuration, where nothing at all is configured, the fallback
is still the hard-coded constant `"科技"`; `collect_all` reads no default
industry from the configuration. -/
theorem claim_C5_counterexample :
    assignIndustry [⟨"", ["股"]⟩, ⟨"汽车", ["股"]⟩] artFin = "汽车"
    ∧ (List.find?
        (fun ind =>
          ind.keywords.any
            (fun kw => substrIn kw (artFin.title ++ artFin.content)))
        ([⟨"", ["股"]⟩, ⟨"汽车", ["股"]⟩] : List Industry)) =
      some ⟨"", ["股"]⟩
    ∧ ¬ ("汽车" = "")
    ∧ assignIndustry [] artFin = "科技" := by
  refine ⟨by decide, by decide, by decide, by decide⟩

/-- C5 (amended): industry assignment is deterministic first-match, with
two corrections forced by the counterexample: the fallback is the
hard-coded constant `"科技"`, not a configured default (`specAssignIndustry`
is instantiated at that constant), and the first-match characterization
holds provided every configured industry name is non-empty — with an
empty-named industry the code's `if assigned: break` falls through past
that match.  Under that proviso the code's nested-loop assignment equals
"first industry whose keyword list matches, else 科技", and an article of
a succeeding source appears in exactly that one bucket of `collect_all`'s
result.  Determinism is immediate: the assignment is a pure function of
the industries table and the article. -/
theorem claim_C5_industry_assignment (industries : List Industry)
    (a : Article) (results : List (Except String (List Article)))
    (h : ∀ ind ∈ industries, ind.name ≠ "") :
    assignIndustry industries a = specAssignIndustry industries "科技" a
    ∧ (∀ ind, a ∈ collectAll industries results ind ↔
        (ind = assignIndustry industries a
          ∧ a ∈ successArticles results)) := by
  constructor
  · unfold assignIndustry specAssignIndustry
    rw [assignLoop_eq_find _ _ h]
    rcases hf : industries.find?
        (fun ind =>
          ind.keywords.any
            (fun kw => substrIn kw (a.title ++ a.content))) with _ | ind
    · rw [hf]
      rfl
    · rw [hf]
      have hn : ind.name ≠ "" := h ind (List.mem_of_find?_eq_some hf)
      simp [hn]
  · intro ind
    rw [collectAll_apply, List.mem_filter]
    constructor
    · rintro ⟨hm, hb⟩
      have hb' : assignIndustry industries a = ind := by simpa using hb
      exact ⟨hb'.symm, hm⟩
    · rintro ⟨rfl, hm⟩
      exact ⟨hm, by simp⟩

set_option maxRecDepth 10000 in
/-- C5 witness: a finance-keyword article lands in the 金融 bucket of a
concrete two-industry configuration. -/
theorem claim_C5_witness :
    assignIndustry industriesSample artFin =
      specAssignIndustry industriesSample "科技" artFin
    ∧ artFin ∈ collectAll industriesSample [.ok [artFin]] "金融" := by
  have t := claim_C5_industry_assignment industriesSample artFin
    [.ok [artFin]] (by decide)
  refine ⟨t.1, (t.2 "金融").mpr ⟨?_, ?_⟩⟩
  · decide
  · simp [successArticles]

/-- C8: every article surviving the Source Collector's accept loop — hence
everything entering an industry bucket or the aggregate result, which are
built from these survivors — satisfies the validity invariant (non-empty
title, content and url, and content at least `min_content_length`); and an
extracted article whose content has length 50 fails `filter_article` under
`min_content_length = 100`. -/
theorem claim_C8_validity_invariant :
    (∀ (cache : CacheState String) (now minLen : Nat)
        (ol : List (Option Article)) (a : Article),
      a ∈ (collectLoop now minLen cache ol).1 → validArticle minLen a)
    ∧ (∀ (cache : CacheState String) (now : Nat) (a : Article),
        a.content.length = 50 → (filterArticle cache now 100 a).1 = false) := by
  constructor
  · intro cache now minLen ol a ha
    exact collectLoop_valid now minLen ol cache a ha
  · intro cache now a hlen
    by_cases h1 : a.title = ""
    · simp [filterArticle, h1]
    by_cases h2 : a.content = ""
    · simp [filterArticle, h1, h2]
    by_cases h3 : a.url = ""
    · simp [filterArticle, h1, h2, h3]
    have h4 : a.content.length < 100 := by omega
    simp [filterArticle, h1, h2, h3, h4]

set_option maxRecDepth 10000 in
/-- C8 witness: a surviving article is valid, and a 50-character article is
filtered out under `min_content_length = 100`. -/
theorem claim_C8_witness :
    validArticle 100 artFin
    ∧ (filterArticle (emptyCache String) 7 100 artShort).1 = false := by
  refine ⟨claim_C8_validity_invariant.1 (emptyCache String) 3 100
    [some artFin] artFin ?_,
    claim_C8_validity_invariant.2 (emptyCache String) 7 artShort (by decide)⟩
  decide

end Gsaecy
